import Mathlib

/-!
Verification of the DRSVMS road-safety violation management backend.

The development shallowly embeds the core of the repository:

* `PlateValidator` (src/utils/plateValidation.ts): plate-number
  normalization, format validation against the Nigerian format table,
  Levenshtein-based fuzzy matching and OCR suggestions.
* `VehicleService` (src/services/vehicleService.ts): lookup by plate,
  vehicle creation, point adjustment with the 12-point suspension
  threshold.
* `ViolationService` / `PaymentService` (src/services/violationService.ts,
  src/services/paymentService.ts): violation batch creation, contesting,
  payment initiation, gateway verification fan-out and refunds.

Strings are modelled as `List Char`; monetary amounts as `ℚ`; penalty
points as `ℕ` for catalog entries (the Sequelize models validate
`min: 0`) and `ℤ` for the accumulated vehicle total (the adjustment
delta may be negative).  Database tables are lists of records; a
Sequelize transaction is modelled by the operation returning
`Except Err (Db × α)`: an `Except.error` result corresponds to a
rollback, i.e. the caller keeps the unchanged pre-state.  External
gateway calls are modelled as oracle arguments describing the
response the gateway returned (or that the call threw).
-/

namespace DRSVMS

/-! ## PlateValidator: normalization (plateValidation.ts, normalizePlateNumber) -/

/-- Whitespace characters removed by the normalizer's `replace(/\s+/g, '')`. -/
def isWsChar (c : Char) : Bool :=
  c = ' ' || c = '\t' || c = '\n' || c = '\r' || c = '\x0b' || c = '\x0c'

/-- Lower/upper-case pairs: the effect of JavaScript `toUpperCase()` on the
ASCII alphabet that plate strings are made of. -/
def caseTable : List (Char × Char) :=
  [('a','A'),('b','B'),('c','C'),('d','D'),('e','E'),('f','F'),('g','G'),
   ('h','H'),('i','I'),('j','J'),('k','K'),('l','L'),('m','M'),('n','N'),
   ('o','O'),('p','P'),('q','Q'),('r','R'),('s','S'),('t','T'),('u','U'),
   ('v','V'),('w','W'),('x','X'),('y','Y'),('z','Z')]

/-- Upper-casing of a single character (`String.prototype.toUpperCase`). -/
def upChar (c : Char) : Char :=
  ((caseTable.find? (fun p => p.1 == c)).map Prod.snd).getD c

/-- `plateNumber.replace(/\s+/g, '').toUpperCase()`. -/
def stripUpper (s : List Char) : List Char :=
  (s.filter (fun c => !isWsChar c)).map upChar

/-- `[A-Z]` as a character test. -/
def isUpperLetter (c : Char) : Bool := 'A' ≤ c && c ≤ 'Z'

/-- `[0-9]` as a character test. -/
def isDigitChar (c : Char) : Bool := '0' ≤ c && c ≤ '9'

/-- The regex `^[A-Z]{2}[0-9]{3}[A-Z]{2}$` (old no-hyphen shape). -/
def shape2x3x2 : List Char → Bool
  | [a, b, c, d, e, f, g] =>
      isUpperLetter a && isUpperLetter b && isDigitChar c && isDigitChar d &&
        isDigitChar e && isUpperLetter f && isUpperLetter g
  | _ => false

/-- Hyphen insertion `AB123CD → AB-123-CD` performed by the normalizer. -/
def hyphenate2x3x2 : List Char → List Char
  | [a, b, c, d, e, f, g] => [a, b, '-', c, d, e, '-', f, g]
  | l => l

/-- The regex `^[A-Z]{3}[0-9]{3}[A-Z]{2}$` (3-letter-prefix no-hyphen shape). -/
def shape3x3x2 : List Char → Bool
  | [a, b, c, d, e, f, g, h] =>
      isUpperLetter a && isUpperLetter b && isUpperLetter c && isDigitChar d &&
        isDigitChar e && isDigitChar f && isUpperLetter g && isUpperLetter h
  | _ => false

/-- Hyphen insertion `ABC123DE → ABC-123-DE` performed by the normalizer. -/
def hyphenate3x3x2 : List Char → List Char
  | [a, b, c, d, e, f, g, h] => [a, b, c, '-', d, e, f, '-', g, h]
  | l => l

/-- `PlateValidator.normalizePlateNumber`: strip whitespace, upper-case, then
re-hyphenate the two recognized no-hyphen legacy shapes. -/
def normalizePlateNumber (s : List Char) : List Char :=
  let normalized := stripUpper s
  let n2 := if shape2x3x2 normalized then hyphenate2x3x2 normalized else normalized
  if shape3x3x2 n2 then hyphenate3x3x2 n2 else n2

/-! ## PlateValidator: fuzzy matching (calculateSimilarity, fuzzyMatchPlate) -/

/-- The Levenshtein edit distance computed by the dynamic-programming matrix
in `PlateValidator.calculateSimilarity`: the base row and column hold the
prefix lengths and the recurrence is
`matrix[j][i] = min(matrix[j][i-1] + 1, matrix[j-1][i] + 1, matrix[j-1][i-1] + substitutionCost)`,
written here as the equivalent recursion on the two strings. -/
def levDistance : List Char → List Char → Nat
  | [], t => t.length
  | s, [] => s.length
  | a :: s, b :: t =>
      min (levDistance (a :: s) t + 1)
        (min (levDistance s (b :: t) + 1)
          (levDistance s t + (if a = b then 0 else 1)))
termination_by s t => s.length + t.length
decreasing_by all_goals (simp only [List.length_cons]; omega)

/-- Result record of `PlateValidator.fuzzyMatchPlate`. -/
structure FuzzyMatchResult where
  isMatch : Bool
  similarity : ℚ
  suggestions : List (List Char)
deriving Repr, DecidableEq

/-- `PlateValidator.calculateSimilarity`: normalized Levenshtein similarity;
an empty string against a non-empty one scores 0, two empty strings score 1. -/
def calculateSimilarity (str1 str2 : List Char) : ℚ :=
  if str1.length = 0 then (if str2.length = 0 then 1 else 0)
  else if str2.length = 0 then 0
  else ((max str1.length str2.length : ℚ) - levDistance str1 str2) /
    (max str1.length str2.length : ℚ)

/-- The confusable-character map of `generateOCRSuggestions`. -/
def ocrMappings : List (Char × List Char) :=
  [('0', ['O', 'D', 'Q']), ('O', ['0', 'D', 'Q']),
   ('I', ['1', 'L', 'T']), ('1', ['I', 'L', 'T']),
   ('5', ['S', 'G']), ('S', ['5', 'G']),
   ('B', ['8', 'R']), ('8', ['B', 'R']),
   ('6', ['G', 'C']), ('G', ['6', 'C']),
   ('2', ['Z', 'R']), ('Z', ['2', 'R'])]

/-- All single-character substitutions of the plate along the confusable map,
in the position-then-replacement order of the source loop. -/
def ocrSubstitutions : List Char → List (List Char)
  | [] => []
  | c :: rest =>
      (((ocrMappings.find? (fun m => m.1 == c)).map Prod.snd).getD []).map
          (fun r => r :: rest) ++
        (ocrSubstitutions rest).map (fun l => c :: l)

/-- `PlateValidator.generateOCRSuggestions`: substitutions deduplicated in
first-occurrence order (`[...new Set(suggestions)]`). -/
def generateOCRSuggestions (plateNumber : List Char) : List (List Char) :=
  (ocrSubstitutions plateNumber).eraseDups

/-- The default fuzzy threshold (`threshold: number = 0.7`). -/
def defaultFuzzyThreshold : ℚ := 7 / 10

/-- `PlateValidator.fuzzyMatchPlate`: normalizes both plates, scores them with
`calculateSimilarity`, and emits up to 5 OCR suggestions when the similarity
is above `threshold - 0.2`. -/
def fuzzyMatchPlate (inputPlate targetPlate : List Char) (threshold : ℚ) :
    FuzzyMatchResult :=
  let normalizedInput := normalizePlateNumber inputPlate
  let normalizedTarget := normalizePlateNumber targetPlate
  let similarity := calculateSimilarity normalizedInput normalizedTarget
  let suggestions :=
    if similarity > threshold - 2 / 10 then generateOCRSuggestions normalizedInput
    else []
  { isMatch := decide (threshold ≤ similarity),
    similarity := similarity,
    suggestions := suggestions.take 5 }

/-! ## PlateValidator: format validation (NIGERIAN_PLATE_FORMATS, validatePlateNumber) -/

/-- One entry of the `NIGERIAN_PLATE_FORMATS` table (the regex becomes a
decidable test on the character list; `category` keeps the source's string
values). -/
structure PlateNumberFormat where
  pattern : List Char → Bool
  description : String
  examplePlate : String
  category : String

/-- Regex `^[A-Z]{3}-[0-9]{3}-[A-Z]{2}$` (current format, also used by the
commercial entry). -/
def patCurrentFormat : List Char → Bool
  | [a, b, c, '-', d, e, f, '-', g, h] =>
      isUpperLetter a && isUpperLetter b && isUpperLetter c && isDigitChar d &&
        isDigitChar e && isDigitChar f && isUpperLetter g && isUpperLetter h
  | _ => false

/-- Regex `^[A-Z]{2,3}-[0-9]{3}-[A-Z]{1,2}$` (old format), expressed through
the hyphen-separated segments of the string. -/
def patOldFormat (l : List Char) : Bool :=
  match l.splitOn '-' with
  | [x, y, z] =>
      decide (2 ≤ x.length) && decide (x.length ≤ 3) && x.all isUpperLetter &&
        decide (y.length = 3) && y.all isDigitChar &&
        decide (1 ≤ z.length) && decide (z.length ≤ 2) && z.all isUpperLetter
  | _ => false

/-- Regex `^[A-Z]{3,6}-[0-9]{3}$` (government format). -/
def patGovernmentFormat (l : List Char) : Bool :=
  match l.splitOn '-' with
  | [x, y] =>
      decide (3 ≤ x.length) && decide (x.length ≤ 6) && x.all isUpperLetter &&
        decide (y.length = 3) && y.all isDigitChar
  | _ => false

/-- Regex `^CD-[0-9]{3}-[A-Z]$` (diplomatic format). -/
def patDiplomaticFormat : List Char → Bool
  | ['C', 'D', '-', d, e, f, '-', g] =>
      isDigitChar d && isDigitChar e && isDigitChar f && isUpperLetter g
  | _ => false

/-- Regex `^MIL-[0-9]{3}$` (military format). -/
def patMilitaryFormat : List Char → Bool
  | ['M', 'I', 'L', '-', d, e, f] => isDigitChar d && isDigitChar e && isDigitChar f
  | _ => false

def currentFormat : PlateNumberFormat :=
  ⟨patCurrentFormat, "Current Nigerian format (3 letters, 3 numbers, 2 letters)",
    "ABC-123-DE", "private"⟩

def oldFormat : PlateNumberFormat :=
  ⟨patOldFormat, "Old Nigerian format (2-3 letters, 3 numbers, 1-2 letters)",
    "AB-123-CD", "private"⟩

def commercialFormat : PlateNumberFormat :=
  ⟨patCurrentFormat, "Commercial vehicle format", "COM-123-XY", "commercial"⟩

def governmentFormat : PlateNumberFormat :=
  ⟨patGovernmentFormat, "Government vehicle format", "ABUJA-123", "government"⟩

def diplomaticFormat : PlateNumberFormat :=
  ⟨patDiplomaticFormat, "Diplomatic vehicle format", "CD-123-A", "diplomatic"⟩

def militaryFormat : PlateNumberFormat :=
  ⟨patMilitaryFormat, "Military vehicle format", "MIL-123", "military"⟩

/-- Regex `^[A-Z]{2}[0-9]{3}[A-Z]{2}$` (old format without hyphens) is the
same shape the normalizer tests, `shape2x3x2`. -/
def noHyphenFormat : PlateNumberFormat :=
  ⟨shape2x3x2, "Old format without hyphens", "AB123CD", "private"⟩

/-- The ordered candidate list `NIGERIAN_PLATE_FORMATS`. -/
def NIGERIAN_PLATE_FORMATS : List PlateNumberFormat :=
  [currentFormat, oldFormat, commercialFormat, governmentFormat,
   diplomaticFormat, militaryFormat, noHyphenFormat]

/-- The fixed allow-list `NIGERIAN_STATE_CODES`, copied from the source. -/
def NIGERIAN_STATE_CODES : List String :=
  ["AA", "AB", "AD", "AE", "AH", "AJ", "AK", "AL", "AM", "AN", "AO", "AP",
   "AR", "AS", "AT", "AU", "AW", "AX", "AY", "AZ", "BA", "BB", "BC", "BD",
   "BE", "BF", "BG", "BH", "BI", "BJ", "BK", "BL", "BM", "BN", "BO", "BP",
   "BQ", "BR", "BS", "BT", "CA", "CB", "CC", "CD", "CE", "CF", "CG", "CH",
   "CI", "CJ", "CK", "CL", "CM", "CN", "CO", "CP", "CQ", "CR", "CS", "CT",
   "DA", "DB", "DC", "DD", "DE", "DF", "DG", "DH", "DI", "DJ", "DK", "DL",
   "DM", "DN", "DO", "DP", "DQ", "DR", "DS", "DT", "EA", "EB", "EC", "ED",
   "EE", "EF", "EG", "EH", "EI", "EJ", "EK", "EL", "EM", "EN", "EO", "EP",
   "EQ", "ER", "ES", "ET", "FA", "FB", "FC", "FD", "FE", "FF", "FG", "FH",
   "FI", "FJ", "FK", "FL", "FM", "FN", "FO", "FP", "FQ", "FR", "FS", "FT",
   "GA", "GB", "GC", "GD", "GE", "GF", "GG", "GH", "GI", "GJ", "GK", "GL",
   "GM", "GN", "GO", "GP", "GQ", "GR", "GS", "GT", "HA", "HB", "HC", "HD",
   "HE", "HF", "HG", "HH", "HI", "HJ", "HK", "HL", "HM", "HN", "HO", "HP",
   "HQ", "HR", "HS", "HT", "JA", "JB", "JC", "JD", "JE", "JF", "JG", "JH",
   "JI", "JJ", "JK", "JL", "JM", "JN", "JO", "JP", "JQ", "JR", "JS", "JT",
   "KA", "KB", "KC", "KD", "KE", "KF", "KG", "KH", "KI", "KJ", "KK", "KL",
   "KM", "KN", "KO", "KP", "KQ", "KR", "KS", "KT", "LA", "LB", "LC", "LD",
   "LE", "LF", "LG", "LH", "LI", "LJ", "LK", "LL", "LM", "LN", "LO", "LP",
   "LQ", "LR", "LS", "LT", "MA", "MB", "MC", "MD", "ME", "MF", "MG", "MH",
   "MI", "MJ", "MK", "ML", "MM", "MN", "MO", "MP", "MQ", "MR", "MS", "MT",
   "NA", "NB", "NC", "ND", "NE", "NF", "NG", "NH", "NI", "NJ", "NK", "NL",
   "NM", "NN", "NO", "NP", "NQ", "NR", "NS", "NT", "OA", "OB", "OC", "OD",
   "OE", "OF", "OG", "OH", "OI", "OJ", "OK", "OL", "OM", "ON", "OO", "OP",
   "OQ", "OR", "OS", "OT", "PA", "PB", "PC", "PD", "PE", "PF", "PG", "PH",
   "PI", "PJ", "PK", "PL", "PM", "PN", "PO", "PP", "PQ", "PR", "PS", "PT",
   "RA", "RB", "RC", "RD", "RE", "RF", "RG", "RH", "RI", "RJ", "RK", "RL",
   "RM", "RN", "RO", "RP", "RQ", "RR", "RS", "RT", "SA", "SB", "SC", "SD",
   "SE", "SF", "SG", "SH", "SI", "SJ", "SK", "SL", "SM", "SN", "SO", "SP",
   "SQ", "SR", "SS", "ST", "TA", "TB", "TC", "TD", "TE", "TF", "TG", "TH",
   "TI", "TJ", "TK", "TL", "TM", "TN", "TO", "TP", "TQ", "TR", "TS", "TT",
   "YA", "YB", "YC", "YD", "YE", "YF", "YG", "YH", "YI", "YJ", "YK", "YL",
   "YM", "YN", "YO", "YP", "YQ", "YR", "YS", "YT", "ZA", "ZB", "ZC", "ZD",
   "ZE", "ZF", "ZG", "ZH", "ZI", "ZJ", "ZK", "ZL", "ZM", "ZN", "ZO", "ZP",
   "ZQ", "ZR", "ZS", "ZT"]

/-- `PlateValidator.extractStateCode`: the regex `^([A-Z]{2})` — the leading
two characters when both are uppercase letters. -/
def extractStateCode (plateNumber : List Char) : Option (List Char) :=
  match plateNumber with
  | a :: b :: _ => if isUpperLetter a && isUpperLetter b then some [a, b] else none
  | _ => none

/-- `PlateValidator.isValidStateCode`. -/
def isValidStateCode (stateCode : List Char) : Bool :=
  NIGERIAN_STATE_CODES.contains (String.mk stateCode)

/-- Result record of `PlateValidator.validatePlateNumber`. -/
structure PlateValidationResult where
  isValid : Bool
  format : Option PlateNumberFormat
  normalized : List Char
  errors : List String

/-- The aggregated tail pushed when no candidate format accepts the plate. -/
def noMatchErrors : List String :=
  ["Invalid Nigerian plate number format",
   "Expected formats: " ++
     String.intercalate ", " (NIGERIAN_PLATE_FORMATS.map (·.examplePlate))]

/-- The `for (const format of NIGERIAN_PLATE_FORMATS)` loop of
`validatePlateNumber`, with the running `errors` array as accumulator. -/
def validateAgainstFormats (normalized : List Char) :
    List PlateNumberFormat → List String → PlateValidationResult
  | [], errors =>
      { isValid := false, format := none, normalized := normalized,
        errors := errors ++ noMatchErrors }
  | f :: rest, errors =>
      if f.pattern normalized then
        match extractStateCode normalized with
        | some stateCode =>
            if isValidStateCode stateCode then
              { isValid := true, format := some f, normalized := normalized,
                errors := [] }
            else
              validateAgainstFormats normalized rest
                (errors ++ ["Invalid state code: " ++ String.mk stateCode])
        | none =>
            { isValid := true, format := some f, normalized := normalized,
              errors := [] }
      else validateAgainstFormats normalized rest errors

/-- `PlateValidator.validatePlateNumber`. -/
def validatePlateNumber (plateNumber : List Char) : PlateValidationResult :=
  let normalized := normalizePlateNumber plateNumber
  if normalized = [] then
    { isValid := false, format := none, normalized := normalized,
      errors := ["Plate number is required"] }
  else validateAgainstFormats normalized NIGERIAN_PLATE_FORMATS []

/-- Whether the state-code gate lets the (format-independent) leading
segment of a normalized plate through. -/
def plateStateCodeOk (normalized : List Char) : Bool :=
  match extractStateCode normalized with
  | some stateCode => isValidStateCode stateCode
  | none => true

/-- The state-code rejection messages accumulated by the format loop. -/
def stateCodeErrors (n : List Char) (fs : List PlateNumberFormat) : List String :=
  fs.filterMap (fun f =>
    if f.pattern n then
      match extractStateCode n with
      | some sc =>
          if isValidStateCode sc then none
          else some ("Invalid state code: " ++ String.mk sc)
      | none => none
    else none)

/-! ## Data model (src/models): Sequelize rows as records, tables as lists -/

inductive VehicleStatus
  | active
  | suspended
  | expired
  | revoked
deriving Repr, DecidableEq

inductive ViolationStatus
  | pending
  | paid
  | partiallyPaid
  | contested
  | dismissed
  | courtPending
deriving Repr, DecidableEq

inductive PaymentStatus
  | pending
  | completed
  | failed
  | refunded
deriving Repr, DecidableEq

inductive GatewayProvider
  | paystack
  | flutterwave
  | interswitch
deriving Repr, DecidableEq

/-- `ViolationType` catalog row (fields the core reads; `fineAmount` has
`validate: min 0` and `points` has `validate: min 0, max 12`, so points are
a natural number). -/
structure ViolationType where
  id : Nat
  code : String
  fineAmount : ℚ
  points : Nat
  isActive : Bool
deriving Repr, DecidableEq

/-- `VehicleOwner` row (fields the core reads; `currentPoints` is kept as an
integer because `Math.max(0, ...)` in the point adjuster guards against a
negative delta). Defaults: `status = active`, `currentPoints = 0`. -/
structure VehicleOwner where
  id : Nat
  plateNumber : List Char
  fullName : String
  licenseNumber : Option String
  currentPoints : Int
  status : VehicleStatus
deriving Repr, DecidableEq

/-- `Violation` row (fields the core reads); dates are abstract timestamps. -/
structure Violation where
  id : Nat
  ticketNumber : String
  plateNumber : List Char
  vehicleOwnerId : Option Nat
  officerId : Nat
  violationTypeId : Nat
  fineAmount : ℚ
  points : Nat
  locationState : String
  status : ViolationStatus
  paidDate : Option Nat
  contestDate : Option Nat
  contestReason : Option String
deriving Repr, DecidableEq

/-- `Payment` row (fields the core reads). `gatewayResponse` is the opaque
raw gateway payload, kept as a string. -/
structure Payment where
  id : Nat
  violationId : Nat
  amount : ℚ
  paymentMethod : String
  paymentReference : String
  gatewayReference : Option String
  gatewayProvider : GatewayProvider
  payerName : Option String
  payerEmail : Option String
  payerPhone : Option String
  status : PaymentStatus
  paymentDate : Nat
  gatewayResponse : Option String
  refundReason : Option String
  refundedAmount : ℚ
  refundDate : Option Nat
deriving Repr, DecidableEq

/-- The persistent state: one list per table, plus the auto-increment
counters of the three tables the core inserts into. -/
structure Db where
  violationTypes : List ViolationType
  vehicles : List VehicleOwner
  violations : List Violation
  payments : List Payment
  nextVehicleId : Nat
  nextViolationId : Nat
  nextPaymentId : Nat
deriving Repr, DecidableEq

/-- `createError(message, statusCode)` from the error-handler middleware. -/
structure Err where
  message : String
  statusCode : Nat
deriving Repr, DecidableEq

def createError (message : String) (statusCode : Nat) : Err :=
  ⟨message, statusCode⟩

/-- A Sequelize transaction: `Except.error` is a rollback, so the caller
keeps the unchanged pre-state; `runTx` makes that explicit. -/
def runTx {α : Type} (db : Db) (act : Except Err (Db × α)) : Db × Except Err α :=
  match act with
  | Except.error e => (db, Except.error e)
  | Except.ok (db', a) => (db', Except.ok a)

/-! ## VehicleService (vehicleService.ts) -/

/-- Upper-casing of a whole string (`toUpperCase()` on license numbers). -/
def strUpper (s : String) : String := String.mk (s.data.map upChar)

def findVehicleByPlate (db : Db) (plate : List Char) : Option VehicleOwner :=
  db.vehicles.find? (fun v => v.plateNumber == plate)

/-- The body of `VehicleService.updateVehiclePoints` once the vehicle is
loaded: clamp at zero, then flip `active → suspended` at 12 points. -/
def applyPointsUpdate (vehicle : VehicleOwner) (pointsToAdd : Int) : VehicleOwner :=
  let newPoints := vehicle.currentPoints + pointsToAdd
  let clamped := max 0 newPoints
  let status' :=
    if clamped ≥ 12 ∧ vehicle.status = VehicleStatus.active then
      VehicleStatus.suspended
    else vehicle.status
  { vehicle with currentPoints := clamped, status := status' }

def replaceVehicle (db : Db) (v : VehicleOwner) : Db :=
  { db with vehicles := db.vehicles.map (fun w => if w.id = v.id then v else w) }

/-- `VehicleService.updateVehiclePoints`. -/
def updateVehiclePoints (db : Db) (plateNumber : List Char) (pointsToAdd : Int) :
    Except Err (Db × VehicleOwner) :=
  match findVehicleByPlate db (normalizePlateNumber plateNumber) with
  | none => Except.error (createError "Vehicle not found" 404)
  | some vehicle =>
      let vehicle' := applyPointsUpdate vehicle pointsToAdd
      Except.ok (replaceVehicle db vehicle', vehicle')

/-- `VehicleService.lookupByPlateNumber`: exact lookup on the normalized
plate, falling back to a full fuzzy scan (threshold 0.6, top match wins,
up to 5 suggestions) when the input is not itself well-formed. -/
def lookupByPlateNumber (db : Db) (plateNumber : List Char) :
    Option VehicleOwner × PlateValidationResult × List (List Char) :=
  let validation := validatePlateNumber plateNumber
  let normalizedPlate := validation.normalized
  let vehicle := db.vehicles.find? (fun v => v.plateNumber == normalizedPlate)
  if vehicle.isNone && !validation.isValid then
    let fuzzyMatches :=
      (((db.vehicles.map
            (fun v => (v, fuzzyMatchPlate normalizedPlate v.plateNumber (6 / 10)))).filter
          (fun x => x.2.isMatch)).mergeSort
        (fun a b => decide (b.2.similarity ≤ a.2.similarity))).take 5
    match fuzzyMatches with
    | [] => (none, validation, [])
    | best :: _ => (some best.1, validation, fuzzyMatches.map (fun m => m.1.plateNumber))
  else (vehicle, validation, [])

/-- `VehicleService.createVehicle` (the fields the violation path supplies):
format validation, plate- and license-uniqueness checks, then insert with the
model defaults `currentPoints = 0`, `status = active`. -/
def createVehicle (db : Db) (plateNumber : List Char) (fullName : String)
    (licenseNumber : Option String) : Except Err (Db × VehicleOwner) :=
  let plateValidation := validatePlateNumber plateNumber
  if !plateValidation.isValid then
    Except.error (createError
      ("Invalid plate number: " ++ String.intercalate ", " plateValidation.errors) 400)
  else if db.vehicles.any (fun v => v.plateNumber == plateValidation.normalized) then
    Except.error (createError "Plate number already exists" 409)
  else if licenseNumber.any (fun lic =>
      db.vehicles.any (fun v => v.licenseNumber == some (strUpper lic))) then
    Except.error (createError "License number already exists" 409)
  else
    let vehicle : VehicleOwner :=
      { id := db.nextVehicleId, plateNumber := plateValidation.normalized,
        fullName := fullName, licenseNumber := licenseNumber.map strUpper,
        currentPoints := 0, status := VehicleStatus.active }
    Except.ok
      ({ db with
          vehicles := db.vehicles ++ [vehicle],
          nextVehicleId := db.nextVehicleId + 1 }, vehicle)

/-! ## ViolationService (violationService.ts) -/

structure CreateViolationResult where
  violations : List Violation
  totalAmount : ℚ
  totalPoints : Nat
  vehicleOwner : VehicleOwner
  suspensionTriggered : Bool
deriving Repr, DecidableEq

/-- The vehicle-owner points section of `ViolationService.createViolation`
(lines 848-859): add the batch total (no clamp on this path) and flip
`active → suspended` when the new total reaches 12. -/
def applyBatchPoints (vehicleOwner : VehicleOwner) (totalPoints : Nat) :
    VehicleOwner × Bool :=
  let newPoints := vehicleOwner.currentPoints + (totalPoints : Int)
  if newPoints ≥ 12 ∧ vehicleOwner.status = VehicleStatus.active then
    ({ vehicleOwner with
        currentPoints := newPoints,
        status := VehicleStatus.suspended }, true)
  else
    ({ vehicleOwner with currentPoints := newPoints }, false)

/-- One `Violation.create` call of the batch loop: fine and points are
snapshotted from the catalog row, status defaults to `pending`. -/
def mkViolation (vid : Nat) (ticketNumber : String) (owner : VehicleOwner)
    (officerId : Nat) (vt : ViolationType) (locationState : String) : Violation :=
  { id := vid, ticketNumber := ticketNumber, plateNumber := owner.plateNumber,
    vehicleOwnerId := some owner.id, officerId := officerId,
    violationTypeId := vt.id, fineAmount := vt.fineAmount, points := vt.points,
    locationState := locationState, status := ViolationStatus.pending,
    paidDate := none, contestDate := none, contestReason := none }

/-- The tail of `createViolation` once the vehicle owner is resolved:
create one violation row per catalog row, sum amount and points, apply the
combined points update to the owner. `ticketFor i` stands for the
`Date.now()`-plus-random ticket generator at loop iteration `i`. -/
def createViolationBody (db : Db) (vehicleOwner : VehicleOwner)
    (officerId : Nat) (violationTypes : List ViolationType)
    (locationState : String) (ticketFor : Nat → String) :
    Db × CreateViolationResult :=
  let violations := violationTypes.enum.map (fun p =>
    mkViolation (db.nextViolationId + p.1) (ticketFor p.1) vehicleOwner
      officerId p.2 locationState)
  let totalAmount := (violationTypes.map (fun t => t.fineAmount)).sum
  let totalPoints := (violationTypes.map (fun t => t.points)).sum
  let updated := applyBatchPoints vehicleOwner totalPoints
  let db' : Db :=
    { (replaceVehicle db updated.1) with
        violations := db.violations ++ violations,
        nextViolationId := db.nextViolationId + violations.length }
  (db', { violations := violations, totalAmount := totalAmount,
          totalPoints := totalPoints, vehicleOwner := updated.1,
          suspensionTriggered := updated.2 })

/-- `ViolationService.createViolation`: validate all violation-type ids
against the active catalog, resolve the vehicle (auto-creating a placeholder
`Unknown Owner` record when the lookup finds none), create the batch and
update the owner's points, all in one transaction. -/
def createViolation (db : Db) (plateNumber : List Char) (officerId : Nat)
    (violationTypeIds : List Nat) (locationState : String)
    (ticketFor : Nat → String) : Except Err (Db × CreateViolationResult) :=
  let violationTypes := db.violationTypes.filter
    (fun t => violationTypeIds.contains t.id && t.isActive)
  if violationTypes.length ≠ violationTypeIds.length then
    Except.error (createError "One or more violation types are invalid or inactive" 400)
  else
    match (lookupByPlateNumber db plateNumber).1 with
    | some vehicleOwner =>
        Except.ok (createViolationBody db vehicleOwner officerId violationTypes
          locationState ticketFor)
    | none =>
        match createVehicle db plateNumber "Unknown Owner" none with
        | Except.error e => Except.error e
        | Except.ok (db1, vehicleOwner) =>
            Except.ok (createViolationBody db1 vehicleOwner officerId
              violationTypes locationState ticketFor)

/-- `ViolationService.contestViolation`: only `pending` violations may be
contested; on success the status becomes `contested` with contest date and
reason stamped. -/
def contestViolation (db : Db) (id : Nat) (contestReason : String) (now : Nat) :
    Except Err (Db × Violation) :=
  match db.violations.find? (fun v => v.id == id) with
  | none => Except.error (createError "Violation not found" 404)
  | some violation =>
      if violation.status ≠ ViolationStatus.pending then
        Except.error (createError "Only pending violations can be contested" 400)
      else
        let violation' :=
          { violation with
              status := ViolationStatus.contested,
              contestDate := some now,
              contestReason := some contestReason }
        Except.ok
          ({ db with
              violations := db.violations.map
                (fun w => if w.id = violation.id then violation' else w) },
            violation')

/-! ## PaymentService (paymentService.ts) -/

structure InitiatePaymentResult where
  paymentUrl : String
  paymentReference : String
  totalAmount : ℚ
  violations : List Violation
deriving Repr, DecidableEq

/-- One `Payment.create` call of `initiatePayment`: one pending row per
violation, amount copied from the fine, all rows sharing the generated
payment reference. `paymentDate` takes the model's `NOW` default. -/
def mkPayment (pid : Nat) (violation : Violation) (paymentMethod : String)
    (paymentReference : String) (gateway : GatewayProvider)
    (payerName payerEmail : String) (payerPhone : Option String)
    (now : Nat) : Payment :=
  { id := pid, violationId := violation.id, amount := violation.fineAmount,
    paymentMethod := paymentMethod, paymentReference := paymentReference,
    gatewayReference := none, gatewayProvider := gateway,
    payerName := some payerName, payerEmail := some payerEmail,
    payerPhone := payerPhone, status := PaymentStatus.pending,
    paymentDate := now, gatewayResponse := none, refundReason := none,
    refundedAmount := 0, refundDate := none }

/-- The violation query of `initiatePayment`: the requested ids restricted
to `status ∈ (pending, partially_paid)`. -/
def payableViolations (db : Db) (violationIds : List Nat) : List Violation :=
  db.violations.filter (fun v =>
    violationIds.contains v.id &&
      (v.status == ViolationStatus.pending ||
        v.status == ViolationStatus.partiallyPaid))

/-- `PaymentService.initiatePayment`: load the requested violations
restricted to `pending`/`partially_paid`, reject on any mismatch, create one
pending Payment per violation under one shared reference, then call the
gateway's initialize operation; the transaction commits only if that call
returns (`gatewayInit` is its oracle: the redirect URL or the thrown error). -/
def initiatePayment (db : Db) (violationIds : List Nat)
    (payerName payerEmail : String) (payerPhone : Option String)
    (paymentMethod : String) (gateway : GatewayProvider)
    (paymentReference : String) (gatewayInit : Except Err String) (now : Nat) :
    Except Err (Db × InitiatePaymentResult) :=
  let violations := payableViolations db violationIds
  if violations.length ≠ violationIds.length then
    Except.error (createError "One or more violations cannot be paid or do not exist" 400)
  else
    let totalAmount := (violations.map (fun v => v.fineAmount)).sum
    let newPayments := violations.enum.map (fun p =>
      mkPayment (db.nextPaymentId + p.1) p.2 paymentMethod paymentReference
        gateway payerName payerEmail payerPhone now)
    match gateway with
    | GatewayProvider.interswitch =>
        Except.error (createError "Unsupported payment gateway" 400)
    | _ =>
        match gatewayInit with
        | Except.error e => Except.error e
        | Except.ok paymentUrl =>
            Except.ok
              ({ db with
                  payments := db.payments ++ newPayments,
                  nextPaymentId := db.nextPaymentId + newPayments.length },
                { paymentUrl := paymentUrl, paymentReference := paymentReference,
                  totalAmount := totalAmount, violations := violations })

structure VerifyPaymentResult where
  success : Bool
  payments : List Payment
  totalAmount : ℚ
deriving Repr, DecidableEq

/-- The data of the gateway's verify response that `verifyPayment` reads:
the provider status string, the optional numeric id, and the raw payload. -/
structure GatewayVerifyData where
  statusStr : String
  respId : Option String
  raw : String
deriving Repr, DecidableEq

/-- `paymentSuccessful` as computed per provider: Paystack reports
`status === 'success'`, Flutterwave `status === 'successful'`. -/
def gatewaySaysSuccess (gateway : GatewayProvider) (resp : GatewayVerifyData) :
    Bool :=
  match gateway with
  | GatewayProvider.paystack => resp.statusStr == "success"
  | GatewayProvider.flutterwave => resp.statusStr == "successful"
  | GatewayProvider.interswitch => false

/-- The per-payment success update of `verifyPayment`. -/
def completePayment (resolvedRef raw : String) (now : Nat) (p : Payment) :
    Payment :=
  { p with
      status := PaymentStatus.completed,
      gatewayReference := some resolvedRef,
      gatewayResponse := some raw,
      paymentDate := now }

/-- The per-payment failure update of `verifyPayment`. -/
def failPayment (raw : String) (p : Payment) : Payment :=
  { p with status := PaymentStatus.failed, gatewayResponse := some raw }

/-- Whether a payment row belongs to the pending batch of a reference. -/
def isPendingUnder (paymentReference : String) (p : Payment) : Bool :=
  p.paymentReference == paymentReference && p.status == PaymentStatus.pending

/-- `PaymentService.verifyPayment`: load the pending payments under the
reference (404 when none), ask the gateway (`gatewayResp` is the oracle for
the verify call), then atomically either complete every loaded payment and
mark its violation paid, or mark every loaded payment failed leaving
violations untouched. -/
def verifyPayment (db : Db) (paymentReference : String)
    (gateway : GatewayProvider) (gatewayReference : Option String)
    (gatewayResp : Except Err GatewayVerifyData) (now : Nat) :
    Except Err (Db × VerifyPaymentResult) :=
  let payments := db.payments.filter (isPendingUnder paymentReference)
  if payments.length = 0 then
    Except.error (createError "No pending payments found for this reference" 404)
  else
    match gateway with
    | GatewayProvider.interswitch =>
        Except.error (createError "Unsupported payment gateway" 400)
    | _ =>
        match gatewayResp with
        | Except.error e => Except.error e
        | Except.ok resp =>
            let resolvedGatewayReference :=
              gatewayReference.getD (resp.respId.getD "")
            if gatewaySaysSuccess gateway resp then
              let updatedPayments :=
                payments.map (completePayment resolvedGatewayReference resp.raw now)
              let db' : Db :=
                { db with
                    payments := db.payments.map (fun p =>
                      if isPendingUnder paymentReference p then
                        completePayment resolvedGatewayReference resp.raw now p
                      else p),
                    violations := db.violations.map (fun v =>
                      if payments.any (fun p => p.violationId == v.id) then
                        { v with
                            status := ViolationStatus.paid,
                            paidDate := some now }
                      else v) }
              Except.ok (db',
                { success := true, payments := updatedPayments,
                  totalAmount := (updatedPayments.map (fun p => p.amount)).sum })
            else
              let updatedPayments := payments.map (failPayment resp.raw)
              let db' : Db :=
                { db with
                    payments := db.payments.map (fun p =>
                      if isPendingUnder paymentReference p then failPayment resp.raw p
                      else p) }
              Except.ok (db',
                { success := false, payments := updatedPayments,
                  totalAmount := 0 })

/-- `PaymentService.processRefund`: only completed payments, only up to the
paid amount, only the Paystack path is implemented; a full-amount refund
reopens the violation to `pending` and clears its paid date
(`gatewayRefund` is the oracle for the provider's refund call). -/
def processRefund (db : Db) (paymentId : Nat) (refundAmount : ℚ)
    (refundReason : String) (processedBy : Nat)
    (gatewayRefund : Except Err String) (now : Nat) :
    Except Err (Db × Payment) :=
  match db.payments.find? (fun p => p.id == paymentId) with
  | none => Except.error (createError "Payment not found" 404)
  | some payment =>
      if payment.status ≠ PaymentStatus.completed then
        Except.error (createError "Only completed payments can be refunded" 400)
      else if payment.amount < refundAmount then
        Except.error (createError "Refund amount cannot exceed payment amount" 400)
      else
        match payment.gatewayProvider with
        | GatewayProvider.paystack =>
            match payment.gatewayReference with
            | none =>
                Except.error (createError "Gateway reference not found for this payment" 400)
            | some _ =>
                match gatewayRefund with
                | Except.error e => Except.error e
                | Except.ok refundRaw =>
                    let payment' :=
                      { payment with
                          status := PaymentStatus.refunded,
                          refundedAmount := refundAmount,
                          refundReason := some refundReason,
                          refundDate := some now,
                          gatewayResponse := some refundRaw }
                    let db1 : Db :=
                      { db with
                          payments := db.payments.map (fun p =>
                            if p.id = payment.id then payment' else p) }
                    let db2 : Db :=
                      if refundAmount = payment.amount then
                        { db1 with
                            violations := db1.violations.map (fun v =>
                              if v.id = payment.violationId then
                                { v with
                                    status := ViolationStatus.pending,
                                    paidDate := none }
                              else v) }
                      else db1
                    Except.ok (db2, payment')
        | _ =>
            Except.error (createError "Refunds not supported for this gateway yet" 400)

/-! ## Concrete fixtures used by the closed instances -/

def plateABC : List Char := ['A', 'B', 'C', '-', '1', '2', '3', '-', 'D', 'E']

def vtSpeeding : ViolationType :=
  { id := 1, code := "SPD01", fineAmount := 5000, points := 4, isActive := true }

def vtSeatbelt : ViolationType :=
  { id := 2, code := "SBL02", fineAmount := 2000, points := 2, isActive := true }

def vtRetired : ViolationType :=
  { id := 3, code := "RET03", fineAmount := 1000, points := 1, isActive := false }

def ownerJane : VehicleOwner :=
  { id := 1, plateNumber := plateABC, fullName := "Jane Doe",
    licenseNumber := none, currentPoints := 10, status := VehicleStatus.active }

def violFirst : Violation := mkViolation 1 "TKT-1" ownerJane 7 vtSpeeding "Lagos"

def violSecond : Violation := mkViolation 2 "TKT-2" ownerJane 7 vtSeatbelt "Lagos"

def violSettled : Violation :=
  { mkViolation 3 "TKT-3" ownerJane 7 vtSpeeding "Lagos" with
      status := ViolationStatus.paid, paidDate := some 10 }

def payFirst : Payment :=
  mkPayment 1 violFirst "card" "PAY_R1" GatewayProvider.paystack "Jane Doe"
    "jane@mail.test" none 100

def paySecond : Payment :=
  mkPayment 2 violSecond "card" "PAY_R1" GatewayProvider.paystack "Jane Doe"
    "jane@mail.test" none 100

def payDead : Payment :=
  { mkPayment 3 violFirst "card" "PAY_R1" GatewayProvider.paystack "Jane Doe"
      "jane@mail.test" none 100 with
      status := PaymentStatus.failed }

def paySettled : Payment :=
  { mkPayment 4 violSettled "card" "PAY_R2" GatewayProvider.paystack "Jane Doe"
      "jane@mail.test" none 90 with
      status := PaymentStatus.completed, gatewayReference := some "GW-9" }

def baseDb : Db :=
  { violationTypes := [vtSpeeding, vtSeatbelt, vtRetired],
    vehicles := [ownerJane],
    violations := [violFirst, violSecond, violSettled],
    payments := [payFirst, paySecond, paySettled],
    nextVehicleId := 2, nextViolationId := 4, nextPaymentId := 5 }

/-- A reference whose rows are in mixed states: one pending and one already
failed payment both carry `PAY_R1`. -/
def mixedDb : Db := { baseDb with payments := [payFirst, payDead] }

/-! ## Theorems -/

lemma upChar_upChar (c : Char) : upChar (upChar c) = upChar c := by
  rcases h : caseTable.find? (fun p => p.1 == c) with _ | p
  · simp [upChar, h]
  · have hm : p ∈ caseTable := List.mem_of_find?_eq_some h
    have : upChar c = p.2 := by simp [upChar, h]
    rw [this]
    fin_cases hm <;> decide

lemma isWsChar_upChar (c : Char) (hc : isWsChar c = false) :
    isWsChar (upChar c) = false := by
  rcases h : caseTable.find? (fun p => p.1 == c) with _ | p
  · simpa [upChar, h] using hc
  · have hm : p ∈ caseTable := List.mem_of_find?_eq_some h
    have : upChar c = p.2 := by simp [upChar, h]
    rw [this]
    fin_cases hm <;> decide

lemma mem_stripUpper_not_ws {s : List Char} :
    ∀ c ∈ stripUpper s, isWsChar c = false := by
  intro c hc
  simp only [stripUpper, List.mem_map, List.mem_filter] at hc
  obtain ⟨d, ⟨_, hd⟩, rfl⟩ := hc
  exact isWsChar_upChar d (by simpa using hd)

lemma mem_stripUpper_upfix {s : List Char} :
    ∀ c ∈ stripUpper s, upChar c = c := by
  intro c hc
  simp only [stripUpper, List.mem_map, List.mem_filter] at hc
  obtain ⟨d, _, rfl⟩ := hc
  exact upChar_upChar d

lemma stripUpper_eq_self {l : List Char}
    (hw : ∀ c ∈ l, isWsChar c = false) (hu : ∀ c ∈ l, upChar c = c) :
    stripUpper l = l := by
  unfold stripUpper
  rw [List.filter_eq_self.mpr (by intro a ha; simp [hw a ha])]
  rw [List.map_congr_left hu]
  simp

lemma shape2x3x2_exists {l : List Char} (h : shape2x3x2 l = true) :
    ∃ a b c d e f g, l = [a, b, c, d, e, f, g] := by
  unfold shape2x3x2 at h
  split at h
  · next a b c d e f g => exact ⟨a, b, c, d, e, f, g, rfl⟩
  · exact absurd h (by simp)

lemma shape3x3x2_exists {l : List Char} (h : shape3x3x2 l = true) :
    ∃ a b c d e f g h8, l = [a, b, c, d, e, f, g, h8] := by
  unfold shape3x3x2 at h
  split at h
  · next a b c d e f g h8 => exact ⟨a, b, c, d, e, f, g, h8, rfl⟩
  · exact absurd h (by simp)

lemma shape2x3x2_false_of_len {l : List Char} (h : l.length ≠ 7) :
    shape2x3x2 l = false := by
  cases hs : shape2x3x2 l
  · rfl
  · obtain ⟨a, b, c, d, e, f, g, rfl⟩ := shape2x3x2_exists hs
    simp at h

lemma shape3x3x2_false_of_len {l : List Char} (h : l.length ≠ 8) :
    shape3x3x2 l = false := by
  cases hs : shape3x3x2 l
  · rfl
  · obtain ⟨a, b, c, d, e, f, g, h8, rfl⟩ := shape3x3x2_exists hs
    simp at h

lemma normalizePlateNumber_fixed {l : List Char}
    (hw : ∀ c ∈ l, isWsChar c = false) (hu : ∀ c ∈ l, upChar c = c)
    (h2 : shape2x3x2 l = false) (h3 : shape3x3x2 l = false) :
    normalizePlateNumber l = l := by
  simp [normalizePlateNumber, stripUpper_eq_self hw hu, h2, h3]

/-- C4: plate normalization is idempotent — normalizing an already
normalized plate string returns it unchanged. -/
theorem normalizePlateNumber_idempotent (s : List Char) :
    normalizePlateNumber (normalizePlateNumber s) = normalizePlateNumber s := by
  have hw := mem_stripUpper_not_ws (s := s)
  have hu := mem_stripUpper_upfix (s := s)
  by_cases h2 : shape2x3x2 (stripUpper s) = true
  · obtain ⟨a, b, c, d, e, f, g, hl⟩ := shape2x3x2_exists h2
    have h3 : shape3x3x2 (hyphenate2x3x2 (stripUpper s)) = false := by
      rw [hl]; exact shape3x3x2_false_of_len (by simp [hyphenate2x3x2])
    have hout : normalizePlateNumber s = [a, b, '-', c, d, e, '-', f, g] := by
      simp only [normalizePlateNumber]
      rw [hl]
      rw [hl] at h2 h3
      simp only [hyphenate2x3x2] at h3
      simp [h2, h3, hyphenate2x3x2]
    rw [hout]
    have hmem : ∀ x ∈ [a, b, '-', c, d, e, '-', f, g],
        x = '-' ∨ x ∈ stripUpper s := by
      intro x hx
      rw [hl]
      simp at hx ⊢
      tauto
    refine normalizePlateNumber_fixed ?_ ?_ ?_ ?_
    · intro x hx
      rcases hmem x hx with rfl | hxs
      · decide
      · exact hw x hxs
    · intro x hx
      rcases hmem x hx with rfl | hxs
      · decide
      · exact hu x hxs
    · exact shape2x3x2_false_of_len (by simp)
    · exact shape3x3x2_false_of_len (by simp)
  · by_cases h3 : shape3x3x2 (stripUpper s) = true
    · obtain ⟨a, b, c, d, e, f, g, h8, hl⟩ := shape3x3x2_exists h3
      have hout : normalizePlateNumber s = [a, b, c, '-', d, e, f, '-', g, h8] := by
        simp only [normalizePlateNumber]
        rw [hl]
        rw [hl] at h2 h3
        simp [h2, h3, hyphenate3x3x2]
      rw [hout]
      have hmem : ∀ x ∈ [a, b, c, '-', d, e, f, '-', g, h8],
          x = '-' ∨ x ∈ stripUpper s := by
        intro x hx
        rw [hl]
        simp at hx ⊢
        tauto
      refine normalizePlateNumber_fixed ?_ ?_ ?_ ?_
      · intro x hx
        rcases hmem x hx with rfl | hxs
        · decide
        · exact hw x hxs
      · intro x hx
        rcases hmem x hx with rfl | hxs
        · decide
        · exact hu x hxs
      · exact shape2x3x2_false_of_len (by simp)
      · exact shape3x3x2_false_of_len (by simp)
    · have hout : normalizePlateNumber s = stripUpper s := by
        simp [normalizePlateNumber, h2, h3]
      rw [hout]
      exact normalizePlateNumber_fixed hw hu
        (by simpa using h2) (by simpa using h3)

lemma levDistance_self (s : List Char) : levDistance s s = 0 := by
  induction s with
  | nil => simp [levDistance]
  | cons a s ih => simp [levDistance, ih]

lemma levDistance_le_max (s t : List Char) :
    levDistance s t ≤ max s.length t.length := by
  induction s generalizing t with
  | nil => simp [levDistance]
  | cons a s ih =>
    cases t with
    | nil => simp [levDistance]
    | cons b t =>
      have h1 : levDistance (a :: s) (b :: t) ≤
          levDistance s t + (if a = b then 0 else 1) := by
        rw [levDistance]
        exact le_trans (min_le_right _ _) (min_le_right _ _)
      have h2 : (if a = b then 0 else 1) ≤ 1 := by split <;> simp
      have h3 := ih t
      simp only [List.length_cons]
      omega

lemma calculateSimilarity_nonneg (s t : List Char) :
    0 ≤ calculateSimilarity s t := by
  unfold calculateSimilarity
  split
  · split <;> norm_num
  · split
    · norm_num
    · apply div_nonneg
      · have h := levDistance_le_max s t
        have : (levDistance s t : ℚ) ≤ (max s.length t.length : ℚ) := by
          exact_mod_cast h
        linarith
      · positivity

lemma calculateSimilarity_le_one (s t : List Char) :
    calculateSimilarity s t ≤ 1 := by
  unfold calculateSimilarity
  split
  · split <;> norm_num
  · next h1 =>
    split
    · norm_num
    · next h2 =>
      have hM : (0 : ℚ) < (max s.length t.length : ℚ) := by
        have : 0 < max s.length t.length := by
          have : s.length ≠ 0 := h1
          omega
        exact_mod_cast this
      rw [div_le_one hM]
      have : (0 : ℚ) ≤ (levDistance s t : ℚ) := by positivity
      linarith

lemma calculateSimilarity_self (s : List Char) : calculateSimilarity s s = 1 := by
  unfold calculateSimilarity
  split
  · next h => simp [h]
  · next h =>
    have hM : (0 : ℚ) < (max s.length s.length : ℚ) := by
      have : 0 < max s.length s.length := by omega
      exact_mod_cast this
    simp only [levDistance_self, Nat.cast_zero, sub_zero, h, if_false]
    rw [div_self (ne_of_gt hM)]

lemma levDistance_nil_right (s : List Char) : levDistance s [] = s.length := by
  cases s <;> simp [levDistance]

/-- C8: `fuzzyMatchPlate` normalizes both inputs; its similarity always lies
in `[0, 1]` and equals the normalized Levenshtein similarity
`(maxLen - editDistance) / maxLen` whenever the two normalized strings are
not both empty; matching any non-empty plate against itself scores exactly 1;
when exactly one of the two normalized strings is empty the similarity is 0;
and `isMatch` holds iff the similarity reaches the threshold. -/
theorem fuzzyMatchPlate_similarity_spec (x y : List Char) (t : ℚ) :
    (0 ≤ (fuzzyMatchPlate x y t).similarity ∧
      (fuzzyMatchPlate x y t).similarity ≤ 1) ∧
    (¬(normalizePlateNumber x = [] ∧ normalizePlateNumber y = []) →
      (fuzzyMatchPlate x y t).similarity =
        ((max (normalizePlateNumber x).length (normalizePlateNumber y).length : ℚ) -
            levDistance (normalizePlateNumber x) (normalizePlateNumber y)) /
          (max (normalizePlateNumber x).length (normalizePlateNumber y).length : ℚ)) ∧
    (x ≠ [] → (fuzzyMatchPlate x x t).similarity = 1) ∧
    ((normalizePlateNumber x = [] ↔ normalizePlateNumber y ≠ []) →
      (fuzzyMatchPlate x y t).similarity = 0) ∧
    ((fuzzyMatchPlate x y t).isMatch = true ↔
      t ≤ (fuzzyMatchPlate x y t).similarity) := by
  have hsim : (fuzzyMatchPlate x y t).similarity =
      calculateSimilarity (normalizePlateNumber x) (normalizePlateNumber y) := rfl
  refine ⟨⟨?_, ?_⟩, ?_, ?_, ?_, ?_⟩
  · rw [hsim]; exact calculateSimilarity_nonneg _ _
  · rw [hsim]; exact calculateSimilarity_le_one _ _
  · intro h
    rw [hsim]
    unfold calculateSimilarity
    split
    · next h1 =>
      have hx : normalizePlateNumber x = [] := List.length_eq_zero.mp h1
      split
      · next h2 =>
        exact absurd ⟨hx, List.length_eq_zero.mp h2⟩ h
      · next h2 =>
        rw [hx]
        simp only [List.length_nil, Nat.cast_zero, levDistance]
        have hpos : (0 : ℚ) < ((normalizePlateNumber y).length : ℚ) := by
          exact_mod_cast Nat.pos_of_ne_zero h2
        rw [max_eq_right (by positivity)]
        rw [sub_self, zero_div]
      -- unreachable
    · next h1 =>
      split
      · next h2 =>
        have hy : normalizePlateNumber y = [] := List.length_eq_zero.mp h2
        rw [hy, levDistance_nil_right]
        simp only [List.length_nil, Nat.cast_zero]
        rw [max_eq_left (by positivity), sub_self, zero_div]
      · rfl
  · intro _
    have : (fuzzyMatchPlate x x t).similarity =
        calculateSimilarity (normalizePlateNumber x) (normalizePlateNumber x) := rfl
    rw [this, calculateSimilarity_self]
  · intro h
    rw [hsim]
    unfold calculateSimilarity
    split
    · next h1 =>
      have hx : normalizePlateNumber x = [] := List.length_eq_zero.mp h1
      have hy : normalizePlateNumber y ≠ [] := h.mp hx
      split
      · next h2 => exact absurd (List.length_eq_zero.mp h2) hy
      · rfl
    · next h1 =>
      have hx : normalizePlateNumber x ≠ [] := by
        intro hc
        exact h1 (by rw [hc]; rfl)
      have hy : normalizePlateNumber y = [] := by
        by_contra hc
        exact hx (h.mpr hc)
      split
      · rfl
      · next h2 => exact absurd (by rw [hy]; rfl) h2
  · simp only [fuzzyMatchPlate, decide_eq_true_eq]

/-- Closed instance of `fuzzyMatchPlate_similarity_spec`: the plate
`"ab123cd"` against the empty string scores 0, and against itself scores 1. -/
theorem fuzzyMatchPlate_similarity_witness :
    (fuzzyMatchPlate ['a', 'b', '1', '2', '3', 'c', 'd'] []
      defaultFuzzyThreshold).similarity = 0 ∧
    (fuzzyMatchPlate ['a', 'b', '1', '2', '3', 'c', 'd']
      ['a', 'b', '1', '2', '3', 'c', 'd'] defaultFuzzyThreshold).similarity = 1 := by
  constructor
  · exact (fuzzyMatchPlate_similarity_spec ['a', 'b', '1', '2', '3', 'c', 'd'] []
      defaultFuzzyThreshold).2.2.2.1 (by decide)
  · exact (fuzzyMatchPlate_similarity_spec ['a', 'b', '1', '2', '3', 'c', 'd'] []
      defaultFuzzyThreshold).2.2.1 (by decide)

lemma validateAgainstFormats_isValid_iff (n : List Char)
    (fs : List PlateNumberFormat) (errs : List String) :
    (validateAgainstFormats n fs errs).isValid = true ↔
      ∃ f ∈ fs, f.pattern n = true ∧ plateStateCodeOk n = true := by
  induction fs generalizing errs with
  | nil => simp [validateAgainstFormats]
  | cons f rest ih =>
    simp only [validateAgainstFormats]
    by_cases hp : f.pattern n = true
    · rw [if_pos hp]
      split
      · next sc hsc =>
        by_cases hv : isValidStateCode sc = true
        · rw [if_pos hv]
          constructor
          · intro _
            exact ⟨f, List.mem_cons_self f rest, hp,
              by simp [plateStateCodeOk, hsc, hv]⟩
          · intro _
            rfl
        · rw [if_neg hv, ih]
          have hok : plateStateCodeOk n = false := by
            simp only [plateStateCodeOk, hsc]
            exact Bool.eq_false_iff.mpr hv
          constructor
          · rintro ⟨g, hg, hgp, hgok⟩
            exact ⟨g, List.mem_cons_of_mem f hg, hgp, hgok⟩
          · rintro ⟨g, hg, hgp, hgok⟩
            rw [hok] at hgok
            exact absurd hgok (by simp)
      · next hsc =>
        constructor
        · intro _
          exact ⟨f, List.mem_cons_self f rest, hp, by simp [plateStateCodeOk, hsc]⟩
        · intro _
          rfl
    · rw [if_neg hp, ih]
      constructor
      · rintro ⟨g, hg, hgp, hgok⟩
        exact ⟨g, List.mem_cons_of_mem f hg, hgp, hgok⟩
      · rintro ⟨g, hg, hgp, hgok⟩
        rcases List.mem_cons.mp hg with rfl | hg'
        · exact absurd hgp hp
        · exact ⟨g, hg', hgp, hgok⟩

lemma validateAgainstFormats_all_rejected (n : List Char)
    (fs : List PlateNumberFormat) (errs : List String)
    (h : ∀ f ∈ fs, f.pattern n = true → plateStateCodeOk n = false) :
    validateAgainstFormats n fs errs =
      { isValid := false, format := none, normalized := n,
        errors := errs ++ stateCodeErrors n fs ++ noMatchErrors } := by
  induction fs generalizing errs with
  | nil => simp [validateAgainstFormats, stateCodeErrors]
  | cons f rest ih =>
    simp only [validateAgainstFormats]
    by_cases hp : f.pattern n = true
    · rw [if_pos hp]
      have hok : plateStateCodeOk n = false := h f (List.mem_cons_self f rest) hp
      split
      · next sc hsc =>
        have hv : isValidStateCode sc = false := by
          simpa [plateStateCodeOk, hsc] using hok
        rw [if_neg (by simp [hv])]
        rw [ih _ (fun g hg => h g (List.mem_cons_of_mem f hg))]
        simp [stateCodeErrors, hp, hsc, hv]
      · next hsc =>
        simp [plateStateCodeOk, hsc] at hok
    · rw [if_neg hp]
      rw [ih _ (fun g hg => h g (List.mem_cons_of_mem f hg))]
      simp [stateCodeErrors, hp]

/-- C9: in `validatePlateNumber`, validity is acceptance by some candidate
format together with the (format-independent) state-code gate — a plate whose
shape matches a candidate but whose leading two-letter code is outside the
allow-list is not accepted through that candidate, and matching continues
over the remaining formats instead of failing closed; such a rejection
records the specific `Invalid state code` error, and whenever no format
accepts the plate the result is invalid and carries the aggregated error
listing all expected example formats. -/
theorem validatePlateNumber_state_code_spec (p : List Char) :
    ((validatePlateNumber p).isValid = true ↔
      normalizePlateNumber p ≠ [] ∧
        ∃ f ∈ NIGERIAN_PLATE_FORMATS,
          f.pattern (normalizePlateNumber p) = true ∧
            plateStateCodeOk (normalizePlateNumber p) = true) ∧
    (∀ sc, extractStateCode (normalizePlateNumber p) = some sc →
      isValidStateCode sc = false →
      (∃ f ∈ NIGERIAN_PLATE_FORMATS, f.pattern (normalizePlateNumber p) = true) →
      (validatePlateNumber p).isValid = false ∧
        ("Invalid state code: " ++ String.mk sc) ∈ (validatePlateNumber p).errors ∧
        ∀ m ∈ noMatchErrors, m ∈ (validatePlateNumber p).errors) ∧
    (normalizePlateNumber p ≠ [] →
      (¬∃ f ∈ NIGERIAN_PLATE_FORMATS,
        f.pattern (normalizePlateNumber p) = true ∧
          plateStateCodeOk (normalizePlateNumber p) = true) →
      (validatePlateNumber p).isValid = false ∧
        ∀ m ∈ noMatchErrors, m ∈ (validatePlateNumber p).errors) := by
  refine ⟨?_, ?_, ?_⟩
  · unfold validatePlateNumber
    by_cases hn : normalizePlateNumber p = []
    · simp [hn]
    · rw [if_neg hn]
      rw [validateAgainstFormats_isValid_iff]
      simp [hn]
  · intro sc hsc hv hmatch
    have hn : normalizePlateNumber p ≠ [] := by
      intro hc
      rw [hc] at hsc
      simp [extractStateCode] at hsc
    have hok : plateStateCodeOk (normalizePlateNumber p) = false := by
      simp [plateStateCodeOk, hsc, hv]
    have hall : ∀ f ∈ NIGERIAN_PLATE_FORMATS,
        f.pattern (normalizePlateNumber p) = true →
          plateStateCodeOk (normalizePlateNumber p) = false := fun _ _ _ => hok
    have heq := validateAgainstFormats_all_rejected (normalizePlateNumber p)
      NIGERIAN_PLATE_FORMATS [] hall
    have hres : validatePlateNumber p =
        { isValid := false, format := none, normalized := normalizePlateNumber p,
          errors := [] ++ stateCodeErrors (normalizePlateNumber p)
            NIGERIAN_PLATE_FORMATS ++ noMatchErrors } := by
      unfold validatePlateNumber
      rw [if_neg hn]
      exact heq
    rw [hres]
    refine ⟨rfl, ?_, ?_⟩
    · obtain ⟨f, hf, hfp⟩ := hmatch
      have : ("Invalid state code: " ++ String.mk sc) ∈
          stateCodeErrors (normalizePlateNumber p) NIGERIAN_PLATE_FORMATS := by
        rw [stateCodeErrors, List.mem_filterMap]
        exact ⟨f, hf, by simp [hfp, hsc, hv]⟩
      simp only [List.nil_append]
      exact List.mem_append_left _ this
    · intro m hm
      simp only [List.nil_append]
      exact List.mem_append_right _ hm
  · intro hn hnone
    have hall : ∀ f ∈ NIGERIAN_PLATE_FORMATS,
        f.pattern (normalizePlateNumber p) = true →
          plateStateCodeOk (normalizePlateNumber p) = false := by
      intro f hf hfp
      by_contra hc
      exact hnone ⟨f, hf, hfp, by simpa using hc⟩
    have hres : validatePlateNumber p =
        { isValid := false, format := none, normalized := normalizePlateNumber p,
          errors := [] ++ stateCodeErrors (normalizePlateNumber p)
            NIGERIAN_PLATE_FORMATS ++ noMatchErrors } := by
      unfold validatePlateNumber
      rw [if_neg hn]
      exact validateAgainstFormats_all_rejected _ _ _ hall
    rw [hres]
    exact ⟨rfl, fun m hm => by
      simp only [List.nil_append]
      exact List.mem_append_right _ hm⟩

/-- Closed instance of `validatePlateNumber_state_code_spec`: `"QA-123-CD"`
matches the old-format shape but `QA` is not a recognized state code, so the
plate is rejected with the specific state-code error and the aggregated
expected-formats error. -/
theorem validatePlateNumber_state_code_witness :
    (validatePlateNumber ['Q', 'A', '-', '1', '2', '3', '-', 'C', 'D']).isValid
        = false ∧
      ("Invalid state code: " ++ String.mk ['Q', 'A']) ∈
        (validatePlateNumber ['Q', 'A', '-', '1', '2', '3', '-', 'C', 'D']).errors ∧
      ∀ m ∈ noMatchErrors,
        m ∈ (validatePlateNumber ['Q', 'A', '-', '1', '2', '3', '-', 'C', 'D']).errors :=
  (validatePlateNumber_state_code_spec
      ['Q', 'A', '-', '1', '2', '3', '-', 'C', 'D']).2.1
    ['Q', 'A'] (by decide) (by decide)
    ⟨oldFormat, by simp [NIGERIAN_PLATE_FORMATS], by decide⟩

/-! ## Violation lifecycle theorems -/

/-- C3: both point-update paths compute the new total as
`max(0, currentPoints + delta)` (on the batch path the delta is the
non-negative batch sum, so the clamp is implicit given the column's
non-negativity invariant), flip `active → suspended` exactly when the new
total reaches 12, and never move a suspended vehicle back to active;
`updateVehiclePoints` is the lookup-then-`applyPointsUpdate` composition. -/
theorem pointsAdjustment_spec :
    (∀ (v : VehicleOwner) (delta : Int),
      (applyPointsUpdate v delta).currentPoints = max 0 (v.currentPoints + delta) ∧
      (12 ≤ max 0 (v.currentPoints + delta) → v.status = VehicleStatus.active →
        (applyPointsUpdate v delta).status = VehicleStatus.suspended) ∧
      (v.status = VehicleStatus.suspended →
        (applyPointsUpdate v delta).status = VehicleStatus.suspended)) ∧
    (∀ (db : Db) (plate : List Char) (delta : Int) (db' : Db) (v' : VehicleOwner),
      updateVehiclePoints db plate delta = Except.ok (db', v') →
      ∃ v, findVehicleByPlate db (normalizePlateNumber plate) = some v ∧
        v' = applyPointsUpdate v delta ∧ db' = replaceVehicle db v') ∧
    (∀ (v : VehicleOwner) (tp : Nat), 0 ≤ v.currentPoints →
      (applyBatchPoints v tp).1.currentPoints = max 0 (v.currentPoints + (tp : Int)) ∧
      (12 ≤ max 0 (v.currentPoints + (tp : Int)) → v.status = VehicleStatus.active →
        (applyBatchPoints v tp).1.status = VehicleStatus.suspended) ∧
      (v.status = VehicleStatus.suspended →
        (applyBatchPoints v tp).1.status = VehicleStatus.suspended)) := by
  refine ⟨?_, ?_, ?_⟩
  · intro v delta
    refine ⟨rfl, ?_, ?_⟩
    · intro h12 hact
      simp only [applyPointsUpdate]
      rw [if_pos ⟨h12, hact⟩]
    · intro hsusp
      simp only [applyPointsUpdate]
      rw [if_neg]
      · exact hsusp
      · rintro ⟨-, hact⟩
        rw [hsusp] at hact
        exact absurd hact (by simp)
  · intro db plate delta db' v' h
    unfold updateVehiclePoints at h
    cases hfind : findVehicleByPlate db (normalizePlateNumber plate) with
    | none => rw [hfind] at h; exact absurd h (by simp)
    | some v =>
      rw [hfind] at h
      simp only [Except.ok.injEq, Prod.mk.injEq] at h
      exact ⟨v, rfl, h.2.symm, h.2 ▸ h.1.symm⟩
  · intro v tp hnn
    have hmax : max 0 (v.currentPoints + (tp : Int)) = v.currentPoints + (tp : Int) := by
      have : (0 : Int) ≤ (tp : Int) := Int.ofNat_nonneg tp
      omega
    refine ⟨?_, ?_, ?_⟩
    · rw [hmax]
      simp only [applyBatchPoints]
      split <;> rfl
    · intro h12 hact
      rw [hmax] at h12
      simp only [applyBatchPoints]
      rw [if_pos ⟨h12, hact⟩]
    · intro hsusp
      simp only [applyBatchPoints]
      rw [if_neg]
      · exact hsusp
      · rintro ⟨-, hact⟩
        rw [hsusp] at hact
        exact absurd hact (by simp)

/-- C6: contesting is only legal from `pending`, in which case the status
becomes `contested` with contest date and reason stamped; from any other
status the call is rejected with the illegal-transition error and the state
is unchanged (rolled back). -/
theorem contestViolation_guard_spec (db : Db) (id : Nat) (reason : String)
    (now : Nat) (v : Violation)
    (hfind : db.violations.find? (fun w => w.id == id) = some v) :
    (v.status = ViolationStatus.pending →
      contestViolation db id reason now =
        Except.ok
          ({ db with
              violations := db.violations.map (fun w =>
                if w.id = v.id then
                  { v with
                      status := ViolationStatus.contested,
                      contestDate := some now,
                      contestReason := some reason }
                else w) },
            { v with
                status := ViolationStatus.contested,
                contestDate := some now,
                contestReason := some reason })) ∧
    (v.status ≠ ViolationStatus.pending →
      runTx db (contestViolation db id reason now) =
        (db, Except.error (createError "Only pending violations can be contested" 400))) := by
  constructor
  · intro hp
    unfold contestViolation
    rw [hfind]
    simp only
    rw [if_neg (by simp [hp])]
  · intro hne
    unfold runTx contestViolation
    rw [hfind]
    simp only
    rw [if_pos hne]

/-- C5: a refund is rejected unless the payment is `completed`, and rejected
when the requested amount exceeds the payment amount; a gateway-confirmed
full refund marks the payment `refunded` with amount, reason and date
recorded and reopens the violation to `pending` with `paidDate` cleared,
while a partial refund leaves the violations table untouched. -/
theorem processRefund_guard_spec (db : Db) (paymentId : Nat) (amount : ℚ)
    (reason : String) (actor : Nat) (gw : Except Err String) (now : Nat)
    (p : Payment)
    (hfind : db.payments.find? (fun q => q.id == paymentId) = some p) :
    (p.status ≠ PaymentStatus.completed →
      runTx db (processRefund db paymentId amount reason actor gw now) =
        (db, Except.error (createError "Only completed payments can be refunded" 400))) ∧
    (p.status = PaymentStatus.completed → p.amount < amount →
      runTx db (processRefund db paymentId amount reason actor gw now) =
        (db, Except.error (createError "Refund amount cannot exceed payment amount" 400))) ∧
    (∀ raw, p.status = PaymentStatus.completed → ¬p.amount < amount →
      p.gatewayProvider = GatewayProvider.paystack →
      p.gatewayReference.isSome = true → gw = Except.ok raw → amount = p.amount →
      ∃ db' p', processRefund db paymentId amount reason actor gw now =
          Except.ok (db', p') ∧
        p'.status = PaymentStatus.refunded ∧ p'.refundedAmount = amount ∧
        p'.refundReason = some reason ∧ p'.refundDate = some now ∧
        db'.payments = db.payments.map (fun q => if q.id = p.id then p' else q) ∧
        db'.violations = db.violations.map (fun v =>
          if v.id = p.violationId then
            { v with status := ViolationStatus.pending, paidDate := none }
          else v) ∧
        db'.vehicles = db.vehicles) ∧
    (∀ raw, p.status = PaymentStatus.completed → ¬p.amount < amount →
      p.gatewayProvider = GatewayProvider.paystack →
      p.gatewayReference.isSome = true → gw = Except.ok raw → amount ≠ p.amount →
      ∃ db' p', processRefund db paymentId amount reason actor gw now =
          Except.ok (db', p') ∧
        p'.status = PaymentStatus.refunded ∧
        db'.violations = db.violations) := by
  refine ⟨?_, ?_, ?_, ?_⟩
  · intro hne
    unfold runTx processRefund
    rw [hfind]
    simp only
    rw [if_pos hne]
  · intro hc hlt
    unfold runTx processRefund
    rw [hfind]
    simp only
    rw [if_neg (by simp [hc]), if_pos hlt]
  · intro raw hc hle hpay hgr hgw hfull
    obtain ⟨gref, hgref⟩ := Option.isSome_iff_exists.mp hgr
    refine ⟨{ db with
        payments := db.payments.map (fun q =>
          if q.id = p.id then
            { p with
                status := PaymentStatus.refunded,
                refundedAmount := amount,
                refundReason := some reason,
                refundDate := some now,
                gatewayResponse := some raw }
          else q),
        violations := db.violations.map (fun v =>
          if v.id = p.violationId then
            { v with
                status := ViolationStatus.pending,
                paidDate := none }
          else v) },
      { p with
          status := PaymentStatus.refunded,
          refundedAmount := amount,
          refundReason := some reason,
          refundDate := some now,
          gatewayResponse := some raw },
      ?_, rfl, rfl, rfl, rfl, rfl, rfl, rfl⟩
    unfold processRefund
    rw [hfind]
    simp only
    rw [if_neg (by simp [hc]), if_neg hle, hpay]
    simp only
    rw [hgref]
    simp only
    rw [hgw]
    simp only
    rw [if_pos hfull]
  · intro raw hc hle hpay hgr hgw hpart
    obtain ⟨gref, hgref⟩ := Option.isSome_iff_exists.mp hgr
    refine ⟨{ db with
        payments := db.payments.map (fun q =>
          if q.id = p.id then
            { p with
                status := PaymentStatus.refunded,
                refundedAmount := amount,
                refundReason := some reason,
                refundDate := some now,
                gatewayResponse := some raw }
          else q) },
      { p with
          status := PaymentStatus.refunded,
          refundedAmount := amount,
          refundReason := some reason,
          refundDate := some now,
          gatewayResponse := some raw },
      ?_, rfl, rfl⟩
    unfold processRefund
    rw [hfind]
    simp only
    rw [if_neg (by simp [hc]), if_neg hle, hpay]
    simp only
    rw [hgref]
    simp only
    rw [hgw]
    simp only
    rw [if_neg hpart]

/-- C7: `initiatePayment` selects only `pending`/`partially_paid`
violations and rejects the whole request when the selection differs in size
from the request (no silent partial selection); a gateway failure rolls the
transaction back (no pending Payment survives); on gateway success exactly
one pending Payment per selected violation is created, all sharing the one
generated reference, with the aggregate amount returned. -/
theorem initiatePayment_selection_spec (db : Db) (ids : List Nat)
    (pn pe : String) (ph : Option String) (method : String)
    (gateway : GatewayProvider) (ref : String) (gwInit : Except Err String)
    (now : Nat) :
    ((payableViolations db ids).length ≠ ids.length →
      runTx db (initiatePayment db ids pn pe ph method gateway ref gwInit now) =
        (db, Except.error
          (createError "One or more violations cannot be paid or do not exist" 400))) ∧
    (∀ v ∈ payableViolations db ids,
      v.status = ViolationStatus.pending ∨
        v.status = ViolationStatus.partiallyPaid) ∧
    (∀ e, (payableViolations db ids).length = ids.length →
      gateway ≠ GatewayProvider.interswitch → gwInit = Except.error e →
      runTx db (initiatePayment db ids pn pe ph method gateway ref gwInit now) =
        (db, Except.error e)) ∧
    (∀ url, (payableViolations db ids).length = ids.length →
      gateway ≠ GatewayProvider.interswitch → gwInit = Except.ok url →
      ∃ db' res,
        initiatePayment db ids pn pe ph method gateway ref gwInit now =
          Except.ok (db', res) ∧
        res.paymentUrl = url ∧ res.paymentReference = ref ∧
        res.violations = payableViolations db ids ∧
        res.totalAmount =
          ((payableViolations db ids).map (fun v => v.fineAmount)).sum ∧
        db'.payments = db.payments ++ (payableViolations db ids).enum.map
          (fun pr => mkPayment (db.nextPaymentId + pr.1) pr.2 method ref gateway
            pn pe ph now) ∧
        db'.payments.length = db.payments.length + ids.length ∧
        (∀ q ∈ (payableViolations db ids).enum.map
            (fun pr => mkPayment (db.nextPaymentId + pr.1) pr.2 method ref
              gateway pn pe ph now),
          q.status = PaymentStatus.pending ∧ q.paymentReference = ref ∧
          ∃ v ∈ payableViolations db ids,
            q.violationId = v.id ∧ q.amount = v.fineAmount) ∧
        db'.violations = db.violations ∧ db'.vehicles = db.vehicles) := by
  refine ⟨?_, ?_, ?_, ?_⟩
  · intro h
    unfold runTx initiatePayment
    rw [if_pos h]
  · intro v hv
    have := List.mem_filter.mp hv
    rcases this with ⟨-, hcond⟩
    simp only [Bool.and_eq_true, Bool.or_eq_true, beq_iff_eq] at hcond
    exact hcond.2
  · intro e hlen hgw hinit
    unfold runTx initiatePayment
    rw [if_neg (by simp [hlen])]
    cases gateway with
    | interswitch => exact absurd rfl hgw
    | paystack => rw [hinit]
    | flutterwave => rw [hinit]
  · intro url hlen hgw hinit
    refine ⟨{ db with
        payments := db.payments ++ (payableViolations db ids).enum.map
          (fun pr => mkPayment (db.nextPaymentId + pr.1) pr.2 method ref gateway
            pn pe ph now),
        nextPaymentId := db.nextPaymentId +
          ((payableViolations db ids).enum.map
            (fun pr => mkPayment (db.nextPaymentId + pr.1) pr.2 method ref
              gateway pn pe ph now)).length },
      { paymentUrl := url, paymentReference := ref,
        totalAmount := ((payableViolations db ids).map (fun v => v.fineAmount)).sum,
        violations := payableViolations db ids },
      ?_, rfl, rfl, rfl, rfl, rfl, ?_, ?_, rfl, rfl⟩
    · unfold initiatePayment
      rw [if_neg (by simp [hlen])]
      cases gateway with
      | interswitch => exact absurd rfl hgw
      | paystack => rw [hinit]
      | flutterwave => rw [hinit]
    · simp only [List.length_append, List.length_map, List.enum_length]
      rw [hlen]
    · intro q hq
      obtain ⟨pr, hpr, rfl⟩ := List.mem_map.mp hq
      refine ⟨rfl, rfl, pr.2, ?_, rfl, rfl⟩
      have : pr.2 ∈ (payableViolations db ids).enum.map Prod.snd :=
        List.mem_map_of_mem Prod.snd hpr
      rwa [List.enum_map_snd] at this

/-! ## Payment verification fan-out -/

lemma verifyPayment_success_eq (db : Db) (ref : String) (gw : GatewayProvider)
    (gref : Option String) (resp : GatewayVerifyData) (now : Nat)
    (hne : db.payments.filter (isPendingUnder ref) ≠ [])
    (hgw : gw ≠ GatewayProvider.interswitch)
    (hs : gatewaySaysSuccess gw resp = true) :
    verifyPayment db ref gw gref (Except.ok resp) now =
      Except.ok
        ({ db with
            payments := db.payments.map (fun p =>
              if isPendingUnder ref p then
                completePayment (gref.getD (resp.respId.getD "")) resp.raw now p
              else p),
            violations := db.violations.map (fun v =>
              if (db.payments.filter (isPendingUnder ref)).any
                  (fun p => p.violationId == v.id) then
                { v with status := ViolationStatus.paid, paidDate := some now }
              else v) },
          { success := true,
            payments := (db.payments.filter (isPendingUnder ref)).map
              (completePayment (gref.getD (resp.respId.getD "")) resp.raw now),
            totalAmount := (((db.payments.filter (isPendingUnder ref)).map
              (completePayment (gref.getD (resp.respId.getD "")) resp.raw now)).map
                (fun p => p.amount)).sum }) := by
  unfold verifyPayment
  rw [if_neg (fun hc => hne (List.length_eq_zero.mp hc))]
  cases gw with
  | interswitch => exact absurd rfl hgw
  | paystack =>
    simp only
    rw [if_pos hs]
  | flutterwave =>
    simp only
    rw [if_pos hs]

lemma verifyPayment_failure_eq (db : Db) (ref : String) (gw : GatewayProvider)
    (gref : Option String) (resp : GatewayVerifyData) (now : Nat)
    (hne : db.payments.filter (isPendingUnder ref) ≠ [])
    (hgw : gw ≠ GatewayProvider.interswitch)
    (hf : gatewaySaysSuccess gw resp = false) :
    verifyPayment db ref gw gref (Except.ok resp) now =
      Except.ok
        ({ db with
            payments := db.payments.map (fun p =>
              if isPendingUnder ref p then failPayment resp.raw p else p) },
          { success := false,
            payments := (db.payments.filter (isPendingUnder ref)).map
              (failPayment resp.raw),
            totalAmount := 0 }) := by
  unfold verifyPayment
  rw [if_neg (fun hc => hne (List.length_eq_zero.mp hc))]
  cases gw with
  | interswitch => exact absurd rfl hgw
  | paystack =>
    simp only
    rw [if_neg (by simp [hf])]
  | flutterwave =>
    simp only
    rw [if_neg (by simp [hf])]

/-- C1 (amended): for a reference with at least one pending Payment row, a
gateway-confirmed success completes every **pending** Payment under the
reference (stamping gateway reference, gateway response and payment date)
and marks each violation associated with those pending payments `paid` with
`paidDate = now`, atomically; on gateway-reported failure every pending
Payment under the reference becomes `failed` and the violations table is
untouched. (Payments under the same reference that were not pending are not
touched in either case.) -/
theorem verifyPayment_fanout_spec (db : Db) (ref : String)
    (gw : GatewayProvider) (gref : Option String) (resp : GatewayVerifyData)
    (now : Nat)
    (hne : db.payments.filter (isPendingUnder ref) ≠ [])
    (hgw : gw ≠ GatewayProvider.interswitch) :
    (gatewaySaysSuccess gw resp = true →
      ∃ db' res, verifyPayment db ref gw gref (Except.ok resp) now =
          Except.ok (db', res) ∧
        res.success = true ∧
        db'.payments = db.payments.map (fun p =>
          if isPendingUnder ref p then
            completePayment (gref.getD (resp.respId.getD "")) resp.raw now p
          else p) ∧
        db'.violations = db.violations.map (fun v =>
          if (db.payments.filter (isPendingUnder ref)).any
              (fun p => p.violationId == v.id) then
            { v with status := ViolationStatus.paid, paidDate := some now }
          else v) ∧
        db'.vehicles = db.vehicles ∧
        res.payments = (db.payments.filter (isPendingUnder ref)).map
          (completePayment (gref.getD (resp.respId.getD "")) resp.raw now) ∧
        (∀ p ∈ res.payments, p.status = PaymentStatus.completed ∧
          p.gatewayReference = some (gref.getD (resp.respId.getD "")) ∧
          p.gatewayResponse = some resp.raw ∧ p.paymentDate = now) ∧
        res.totalAmount = ((db.payments.filter (isPendingUnder ref)).map
          (fun p => p.amount)).sum) ∧
    (gatewaySaysSuccess gw resp = false →
      ∃ db' res, verifyPayment db ref gw gref (Except.ok resp) now =
          Except.ok (db', res) ∧
        res.success = false ∧
        db'.payments = db.payments.map (fun p =>
          if isPendingUnder ref p then failPayment resp.raw p else p) ∧
        db'.violations = db.violations ∧
        db'.vehicles = db.vehicles ∧
        res.payments = (db.payments.filter (isPendingUnder ref)).map
          (failPayment resp.raw) ∧
        (∀ p ∈ res.payments, p.status = PaymentStatus.failed)) := by
  constructor
  · intro hs
    refine ⟨_, _, verifyPayment_success_eq db ref gw gref resp now hne hgw hs,
      rfl, rfl, rfl, rfl, rfl, ?_, ?_⟩
    · intro p hp
      obtain ⟨q, hq, rfl⟩ := List.mem_map.mp hp
      exact ⟨rfl, rfl, rfl, rfl⟩
    · rw [List.map_map]
      rfl
  · intro hf
    refine ⟨_, _, verifyPayment_failure_eq db ref gw gref resp now hne hgw hf,
      rfl, rfl, rfl, rfl, rfl, ?_⟩
    intro p hp
    obtain ⟨q, hq, rfl⟩ := List.mem_map.mp hp
    rfl

/-- Closed instance of `verifyPayment_fanout_spec`: verifying `PAY_R1`
(two pending payments) against a successful Paystack response completes the
batch. -/
theorem verifyPayment_fanout_witness :
    ∃ db' res, verifyPayment baseDb "PAY_R1" GatewayProvider.paystack none
        (Except.ok { statusStr := "success", respId := some "55", raw := "raw" })
        200 = Except.ok (db', res) ∧
      res.success = true := by
  obtain ⟨db', res, h1, h2, -⟩ :=
    (verifyPayment_fanout_spec baseDb "PAY_R1" GatewayProvider.paystack none
      { statusStr := "success", respId := some "55", raw := "raw" } 200
      (by decide) (by decide)).1 (by decide)
  exact ⟨db', res, h1, h2⟩

/-- C1, as stated, is false: on a reference with mixed-status rows the
already-`failed` payment under the reference stays `failed` after a
successful verify, so not every Payment under the reference is completed. -/
theorem verifyPayment_every_payment_counterexample :
    ((runTx mixedDb (verifyPayment mixedDb "PAY_R1" GatewayProvider.paystack
        none (Except.ok { statusStr := "success", respId := some "55", raw := "raw" })
        200)).2.toOption.map (fun r => r.success) = some true) ∧
    ∃ p ∈ (runTx mixedDb (verifyPayment mixedDb "PAY_R1"
        GatewayProvider.paystack none
        (Except.ok { statusStr := "success", respId := some "55", raw := "raw" })
        200)).1.payments,
      p.paymentReference = "PAY_R1" ∧ p.status ≠ PaymentStatus.completed := by
  decide

/-- C10: when the gateway reports failure, `verifyPayment` returns
`success = false` with `totalAmount = 0` (not the sum of the failed
payments' amounts), and the returned payments list is exactly the loaded
pending rows marked `failed`. -/
theorem verifyPayment_failure_result_spec (db : Db) (ref : String)
    (gw : GatewayProvider) (gref : Option String) (resp : GatewayVerifyData)
    (now : Nat)
    (hne : db.payments.filter (isPendingUnder ref) ≠ [])
    (hgw : gw ≠ GatewayProvider.interswitch)
    (hf : gatewaySaysSuccess gw resp = false) :
    ∃ db' res, verifyPayment db ref gw gref (Except.ok resp) now =
        Except.ok (db', res) ∧
      res.success = false ∧ res.totalAmount = 0 ∧
      res.payments = (db.payments.filter (isPendingUnder ref)).map
        (failPayment resp.raw) ∧
      ∀ p ∈ res.payments, p.status = PaymentStatus.failed := by
  refine ⟨_, _, verifyPayment_failure_eq db ref gw gref resp now hne hgw hf,
    rfl, rfl, rfl, ?_⟩
  intro p hp
  obtain ⟨q, hq, rfl⟩ := List.mem_map.mp hp
  rfl

/-- Closed instance of `verifyPayment_failure_result_spec`: a failed Paystack
verification of `PAY_R1` reports `success = false` and `totalAmount = 0`. -/
theorem verifyPayment_failure_result_witness :
    ∃ db' res, verifyPayment baseDb "PAY_R1" GatewayProvider.paystack none
        (Except.ok { statusStr := "failed", respId := none, raw := "raw" })
        200 = Except.ok (db', res) ∧
      res.success = false ∧ res.totalAmount = 0 := by
  obtain ⟨db', res, h1, h2, h3, -⟩ :=
    verifyPayment_failure_result_spec baseDb "PAY_R1" GatewayProvider.paystack
      none { statusStr := "failed", respId := none, raw := "raw" } 200
      (by decide) (by decide) (by decide)
  exact ⟨db', res, h1, h2, h3⟩

/-! ## Violation batch creation -/

lemma foundTypes_length_lt (db : Db) (ids : List Nat)
    (hnodup : (db.violationTypes.map (fun t => t.id)).Nodup)
    (tid : Nat) (htid : tid ∈ ids)
    (hbad : ¬∃ t ∈ db.violationTypes, t.id = tid ∧ t.isActive = true) :
    (db.violationTypes.filter
      (fun t => ids.contains t.id && t.isActive)).length < ids.length := by
  have hsub : (db.violationTypes.filter
        (fun t => ids.contains t.id && t.isActive)).Sublist db.violationTypes :=
    List.filter_sublist _
  have hnodf : ((db.violationTypes.filter
      (fun t => ids.contains t.id && t.isActive)).map (fun t => t.id)).Nodup :=
    List.Nodup.sublist (hsub.map _) hnodup
  have hss : ((db.violationTypes.filter
      (fun t => ids.contains t.id && t.isActive)).map (fun t => t.id)) ⊆
      (ids.dedup).erase tid := by
    intro x hx
    obtain ⟨t, ht, rfl⟩ := List.mem_map.mp hx
    obtain ⟨htmem, hcond⟩ := List.mem_filter.mp ht
    simp only [Bool.and_eq_true] at hcond
    have hmem : t.id ∈ ids := by
      have := hcond.1
      simpa using this
    have hne : t.id ≠ tid := fun hc => hbad ⟨t, htmem, hc, hcond.2⟩
    rw [List.mem_erase_of_ne hne]
    exact List.mem_dedup.mpr hmem
  have hle := (List.subperm_of_subset hnodf hss).length_le
  rw [List.length_map] at hle
  have h1 : tid ∈ ids.dedup := List.mem_dedup.mpr htid
  have h2 := List.length_erase_of_mem h1
  have h3 : ids.dedup.length ≤ ids.length := (List.dedup_sublist ids).length_le
  have h4 : 0 < ids.dedup.length := List.length_pos_of_mem h1
  omega

lemma createVehicle_preserves_tables {db : Db} {p : List Char} {n : String}
    {lic : Option String} {db1 : Db} {v : VehicleOwner}
    (h : createVehicle db p n lic = Except.ok (db1, v)) :
    db1.violations = db.violations ∧ db1.payments = db.payments := by
  simp only [createVehicle] at h
  split at h
  · exact absurd h (by simp)
  · split at h
    · exact absurd h (by simp)
    · split at h
      · exact absurd h (by simp)
      · simp only [Except.ok.injEq, Prod.mk.injEq] at h
        rw [← h.1]
        exact ⟨rfl, rfl⟩

lemma createViolationBody_tables (db : Db) (owner : VehicleOwner)
    (officer : Nat) (vts : List ViolationType) (st : String)
    (tk : Nat → String) :
    (createViolationBody db owner officer vts st tk).1.violations =
      db.violations ++ (createViolationBody db owner officer vts st tk).2.violations ∧
    (createViolationBody db owner officer vts st tk).1.payments = db.payments ∧
    ((createViolationBody db owner officer vts st tk).2.violations).length =
      vts.length := by
  refine ⟨rfl, rfl, ?_⟩
  simp [createViolationBody, List.enum_length]

/-- C2: `createViolation` is all-or-nothing — when any requested
violation-type id has no active catalog row the whole request is rejected
with the invalid-type error and the state (violations, points, vehicles,
payments) is exactly the pre-state; every error outcome leaves the
pre-state; and a successful batch appends exactly one violation per
requested id without touching the payments table. -/
theorem createViolation_batch_atomicity_spec (db : Db) (plate : List Char)
    (officer : Nat) (ids : List Nat) (state : String)
    (ticketFor : Nat → String)
    (hnodup : (db.violationTypes.map (fun t => t.id)).Nodup) :
    ((∃ tid ∈ ids, ¬∃ t ∈ db.violationTypes, t.id = tid ∧ t.isActive = true) →
      runTx db (createViolation db plate officer ids state ticketFor) =
        (db, Except.error
          (createError "One or more violation types are invalid or inactive" 400))) ∧
    (∀ e, (runTx db (createViolation db plate officer ids state ticketFor)).2 =
        Except.error e →
      (runTx db (createViolation db plate officer ids state ticketFor)).1 = db) ∧
    (∀ db' res,
      createViolation db plate officer ids state ticketFor =
        Except.ok (db', res) →
      res.violations.length = ids.length ∧
      db'.violations = db.violations ++ res.violations ∧
      db'.payments = db.payments) := by
  refine ⟨?_, ?_, ?_⟩
  · rintro ⟨tid, htid, hbad⟩
    have hlt := foundTypes_length_lt db ids hnodup tid htid hbad
    unfold runTx createViolation
    rw [if_pos (Nat.ne_of_lt hlt)]
  · intro e he
    cases hres : createViolation db plate officer ids state ticketFor with
    | error e' => simp [runTx, hres]
    | ok pr => simp [runTx, hres] at he
  · intro db' res h
    unfold createViolation at h
    by_cases hguard : (db.violationTypes.filter
        (fun t => ids.contains t.id && t.isActive)).length = ids.length
    · rw [if_neg (not_ne_iff.mpr hguard)] at h
      cases hlk : (lookupByPlateNumber db plate).1 with
      | some owner =>
        rw [hlk] at h
        simp only [Except.ok.injEq, Prod.ext_iff] at h
        have ht := createViolationBody_tables db owner officer
          (db.violationTypes.filter (fun t => ids.contains t.id && t.isActive))
          state ticketFor
        rw [← h.1, ← h.2]
        exact ⟨ht.2.2.trans hguard, ht.1, ht.2.1⟩
      | none =>
        rw [hlk] at h
        cases hcv : createVehicle db plate "Unknown Owner" none with
        | error e => rw [hcv] at h; exact absurd h (by simp)
        | ok pr =>
          obtain ⟨db1, owner⟩ := pr
          rw [hcv] at h
          obtain ⟨hviol, hpay⟩ := createVehicle_preserves_tables hcv
          simp only [Except.ok.injEq, Prod.ext_iff] at h
          have ht := createViolationBody_tables db1 owner officer
            (db.violationTypes.filter (fun t => ids.contains t.id && t.isActive))
            state ticketFor
          rw [← h.1, ← h.2]
          exact ⟨ht.2.2.trans hguard, ht.1.trans (by rw [hviol]),
            ht.2.1.trans hpay⟩
    · rw [if_pos hguard] at h
      exact absurd h (by simp)

/-- Closed instance of `createViolation_batch_atomicity_spec`: a batch
containing the inactive type id 3 among two valid ids is rejected whole and
the state is unchanged. -/
theorem createViolation_batch_witness :
    runTx baseDb (createViolation baseDb plateABC 7 [1, 2, 3] "Lagos"
        (fun _ => "TKT-NEW")) =
      (baseDb, Except.error
        (createError "One or more violation types are invalid or inactive" 400)) :=
  (createViolation_batch_atomicity_spec baseDb plateABC 7 [1, 2, 3] "Lagos"
    (fun _ => "TKT-NEW") (by decide)).1 ⟨3, by decide, by decide⟩

/-- Closed instance of `pointsAdjustment_spec`: a negative adjustment clamps
at zero, and a 10-point active vehicle gaining 2 batch points is suspended. -/
theorem pointsAdjustment_witness :
    (applyPointsUpdate ownerJane (-15)).currentPoints =
      max 0 (ownerJane.currentPoints + (-15)) ∧
    (applyBatchPoints ownerJane 2).1.status = VehicleStatus.suspended := by
  refine ⟨(pointsAdjustment_spec.1 ownerJane (-15)).1, ?_⟩
  exact (pointsAdjustment_spec.2.2 ownerJane 2 (by decide)).2.1
    (by decide) (by decide)

/-- Closed instance of `contestViolation_guard_spec`: contesting the paid
violation with id 3 is rejected and the state is unchanged. -/
theorem contestViolation_guard_witness :
    runTx baseDb (contestViolation baseDb 3 "not mine" 99) =
      (baseDb, Except.error
        (createError "Only pending violations can be contested" 400)) :=
  (contestViolation_guard_spec baseDb 3 "not mine" 99 violSettled
    (by decide)).2 (by decide)

/-- Closed instance of `processRefund_guard_spec`: refunding 6000 against the
5000 payment is rejected; a full 5000 refund succeeds and marks the payment
refunded. -/
theorem processRefund_guard_witness :
    runTx baseDb (processRefund baseDb 4 6000 "over" 9 (Except.ok "rawr") 77) =
      (baseDb, Except.error
        (createError "Refund amount cannot exceed payment amount" 400)) ∧
    ∃ db' p', processRefund baseDb 4 5000 "court overturned" 9
        (Except.ok "rawr") 77 = Except.ok (db', p') ∧
      p'.status = PaymentStatus.refunded := by
  constructor
  · exact (processRefund_guard_spec baseDb 4 6000 "over" 9 (Except.ok "rawr")
      77 paySettled (by decide)).2.1 (by decide) (by decide)
  · obtain ⟨db', p', h1, h2, -⟩ :=
      (processRefund_guard_spec baseDb 4 5000 "court overturned" 9
        (Except.ok "rawr") 77 paySettled (by decide)).2.2.1 "rawr"
        (by decide) (by decide) (by decide) (by decide) rfl (by decide)
    exact ⟨db', p', h1, h2⟩

/-- Closed instance of `initiatePayment_selection_spec`: requesting ids
[1, 3] (id 3 is already paid) is rejected whole; requesting the two pending
ids [1, 2] succeeds with the gateway's redirect URL and the shared
reference. -/
theorem initiatePayment_selection_witness :
    runTx baseDb (initiatePayment baseDb [1, 3] "Jane Doe" "jane@mail.test"
        none "card" GatewayProvider.paystack "PAY_NEW"
        (Except.ok "pay.test/x") 300) =
      (baseDb, Except.error
        (createError "One or more violations cannot be paid or do not exist" 400)) ∧
    ∃ db' res, initiatePayment baseDb [1, 2] "Jane Doe" "jane@mail.test"
        none "card" GatewayProvider.paystack "PAY_NEW"
        (Except.ok "pay.test/x") 300 = Except.ok (db', res) ∧
      res.paymentUrl = "pay.test/x" ∧ res.paymentReference = "PAY_NEW" := by
  constructor
  · exact (initiatePayment_selection_spec baseDb [1, 3] "Jane Doe"
      "jane@mail.test" none "card" GatewayProvider.paystack "PAY_NEW"
      (Except.ok "pay.test/x") 300).1 (by decide)
  · obtain ⟨db', res, h1, h2, h3, -⟩ :=
      (initiatePayment_selection_spec baseDb [1, 2] "Jane Doe"
        "jane@mail.test" none "card" GatewayProvider.paystack "PAY_NEW"
        (Except.ok "pay.test/x") 300).2.2.2 "pay.test/x"
        (by decide) (by decide) rfl
    exact ⟨db', res, h1, h2, h3⟩

end DRSVMS

